import Mathlib

/-!
Verification development for the quota-aware fact-resolution backend
(random-fact-generator).  The definitions below are a shallow embedding of
the JavaScript sources:

* `customRateLimit`       — middleware/rateLimiter.js, `RateLimiter.customRateLimit`
* `RedisConnection.get` / `RedisConnection.set` — config/redis.js
* `canMakeRequest`, `incrementUsage`            — models/User.js instance methods
* `findByKey`, `isValidForRequest`, `apiKeyAuth` — models/ApiKey.js and the
  API-key branch of middleware/auth.js
* `trackRequestCompletion` — middleware/auth.js usage recorder
* `getRandomFact`, `getFactByCategory`, `addFact` — services/factService.js
* `maskKeyTransform`       — models/ApiKey.js toJSON transform

Time is modelled in integer milliseconds, counters as natural numbers, the
Redis counter store as a total function with default 0 (a missing key reads
as 0, exactly as the middleware treats a null GET).  Every cache / store /
generator interaction of a request is recorded in an explicit effect trace
so that claims about which tiers are touched can be stated.
-/

/-- Operations a single reservation issues against the Redis counter store.
The middleware addresses counters by the string key
`rate_limit:KEYID:WINDOWSTART`; the embedding keeps the two injectively
encoded components as a pair.  `testAndIncr` is the combined atomic
test-and-increment primitive that the specification postulates; the code
never issues it, which is exactly what the atomicity claim is about.
`setCounter` is a plain overwriting write (the application-layer
read-modify-write the specification forbids). -/
inductive CounterOp
  | get (key : String × Nat)
  | incr (key : String × Nat) (ttlSeconds : Nat)
  | testAndIncr (key : String × Nat) (ttlSeconds : Nat)
  | setCounter (key : String × Nat) (value : Nat)
  deriving DecidableEq, Repr

/-- Redis counter contents: `(keyId, windowStart) ↦ count`, default 0. -/
abbrev CounterStore : Type := String × Nat → Nat

/-- Atomic INCR on one counter key (`RedisConnection.increment` issues a
single Redis INCR; the TTL attached on first increment only bounds storage
of the window-scoped key and is not otherwise observable here). -/
def atomicIncr (store : CounterStore) (key : String × Nat) : CounterStore :=
  Function.update store key (store key + 1)

/-- Start of the fixed window containing `now`: the source truncates the
current time to the window duration (a 15-minute calendar bucket in
`customRateLimit`), i.e. `now - now % durationMs`. -/
def windowStartMs (durationMs now : Nat) : Nat :=
  now - now % durationMs

/-- Plan tier of an identity (ordered enum in the source). -/
inductive Plan
  | basic
  | premium
  | platinum
  deriving DecidableEq, Repr

/-- Rate-limit configuration resolved for a request:
`max` requests per window of `windowMinutes` minutes. -/
structure RateLimitConf where
  maxRequests : Nat
  windowMinutes : Nat
  deriving DecidableEq, Repr

/-- Plan-based 15-minute request limits (`RateLimiter.getRateLimitForUser`). -/
def planRateLimit : Plan → RateLimitConf
  | Plan.basic => ⟨100, 15⟩
  | Plan.premium => ⟨1000, 15⟩
  | Plan.platinum => ⟨10000, 15⟩

/-- Effective limit for a request: a truthy per-key `rate_limit_override`
wins, otherwise the plan default (`RateLimiter.getRateLimitForUser`). -/
def getRateLimitForUser (plan : Plan) (rateLimitOverride : Option Nat) : RateLimitConf :=
  match rateLimitOverride with
  | some n => if n = 0 then planRateLimit plan else ⟨n, 15⟩
  | none => planRateLimit plan

/-- Outcome of one pass through `RateLimiter.customRateLimit`: either the
429 denial body (status, error code, current usage, limit, reset time) or
the allowed path together with the three rate-limit response headers. -/
inductive RLOutcome
  | denied (status : Nat) (errorCode : String) (currentUsage limitMax resetTime : Nat)
  | allowed (limitHeader remainingHeader resetHeader : Nat)
  deriving DecidableEq, Repr

/-- Whether the middleware let the request continue to the next handler. -/
def RLOutcome.isAllowed : RLOutcome → Bool
  | RLOutcome.denied _ _ _ _ _ => false
  | RLOutcome.allowed _ _ _ => true

/-- Remaining budget carried by an outcome, in the sense of the design
contract `remaining = max(0, limit - count)` (on the denial body it is
derived from the reported usage and limit; on the allowed path it is the
X-RateLimit-Remaining header). -/
def RLOutcome.remaining : RLOutcome → Nat
  | RLOutcome.denied _ _ currentUsage limitMax _ => limitMax - currentUsage
  | RLOutcome.allowed _ remainingHeader _ => remainingHeader

/-- Shallow embedding of `RateLimiter.customRateLimit` for an authenticated
request: read the counter of the current fixed window, deny with 429 when
`count >= limit`, otherwise atomically increment the window counter and
attach the rate-limit headers.  Returns the outcome, the updated counter
store, and the trace of counter-store operations issued. -/
def customRateLimit (store : CounterStore) (keyId : String) (conf : RateLimitConf)
    (now : Nat) : RLOutcome × CounterStore × List CounterOp :=
  let durationMs := conf.windowMinutes * 60000
  let ws := windowStartMs durationMs now
  let key := (keyId, ws)
  let requestCount := store key
  if conf.maxRequests ≤ requestCount then
    (RLOutcome.denied 429 "USER_RATE_LIMIT_EXCEEDED" requestCount conf.maxRequests (ws + durationMs),
     store, [CounterOp.get key])
  else
    (RLOutcome.allowed conf.maxRequests (conf.maxRequests - requestCount - 1) (ws + durationMs),
     atomicIncr store key,
     [CounterOp.get key, CounterOp.incr key (conf.windowMinutes * 60)])

/-! Interleaving model for concurrent reservations.  Each request performs
the two counter-store steps of `customRateLimit` — first read the counter,
then, if the observed value is below the limit, atomically increment it —
and requests may interleave arbitrarily between the two steps. -/

/-- Progress of one in-flight reservation. -/
inductive ReqPhase
  | pending
  | observed (v : Nat)
  | finished (allowed : Bool)
  deriving DecidableEq, Repr

/-- Shared counter plus the phase of every racing reservation. -/
structure RaceState where
  counter : Nat
  reqs : List ReqPhase
  deriving DecidableEq, Repr

/-- One interleaved step: some request reads the counter, or some request
that has read a value below the limit performs its atomic increment, or
some request that has read a value at or above the limit is denied. -/
inductive RaceStep (limitMax : Nat) : RaceState → RaceState → Prop
  | read (s : RaceState) (i : Nat) (h : s.reqs.get? i = some ReqPhase.pending) :
      RaceStep limitMax s ⟨s.counter, s.reqs.set i (ReqPhase.observed s.counter)⟩
  | pass (s : RaceState) (i v : Nat) (h : s.reqs.get? i = some (ReqPhase.observed v))
      (hv : v < limitMax) :
      RaceStep limitMax s ⟨s.counter + 1, s.reqs.set i (ReqPhase.finished true)⟩
  | deny (s : RaceState) (i v : Nat) (h : s.reqs.get? i = some (ReqPhase.observed v))
      (hv : limitMax ≤ v) :
      RaceStep limitMax s ⟨s.counter, s.reqs.set i (ReqPhase.finished false)⟩

/-- Reservations that went through (were allowed and incremented). -/
def isAllowedPhase : ReqPhase → Bool
  | ReqPhase.finished true => true
  | _ => false

/-- Number of reservations that went through. -/
def countAllowed (l : List ReqPhase) : Nat :=
  l.countP isAllowedPhase

/-- Property the specification demands of a reservation trace: the check
and the increment are one single atomic test-and-increment operation
against the counter store.  (Modelled from the spec: the code under test
issues separate operations instead.) -/
def isSingleAtomicTestAndIncrement (trace : List CounterOp) : Prop :=
  ∃ key ttl, trace = [CounterOp.testAndIncr key ttl]

/-- Whether a trace updates a counter by an application-layer overwrite
(the read-modify-write pattern the design forbids). -/
def usesPlainCounterWrite (trace : List CounterOp) : Prop :=
  ∃ key v, CounterOp.setCounter key v ∈ trace

/-! User model (models/User.js). -/

/-- Account status enum of the user schema. -/
inductive UserStatus
  | active
  | suspended
  | pendingVerification
  | deleted
  deriving DecidableEq, Repr

/-- Usage counters of a user document. -/
structure UserUsage where
  totalRequests : Nat
  monthlyRequests : Nat
  lastRequest : Option Nat
  deriving DecidableEq, Repr

/-- Plan limits of a user document; `monthlyRequests = -1` is the unlimited
sentinel, hence the integer type. -/
structure PlanLimits where
  monthlyRequests : Int
  features : List String
  deriving DecidableEq, Repr

/-- The slice of a user document the core pipeline reads. -/
structure User where
  status : UserStatus
  plan : Plan
  planLimits : PlanLimits
  usage : UserUsage
  deriving DecidableEq, Repr

/-- Embedding of `userSchema.methods.canMakeRequest`: inactive accounts can
never make requests, the `-1` sentinel always can, otherwise the monthly
counter must be strictly below the plan limit. -/
def canMakeRequest (u : User) : Bool :=
  if u.status ≠ UserStatus.active then false
  else if u.planLimits.monthlyRequests = -1 then true
  else decide ((u.usage.monthlyRequests : Int) < u.planLimits.monthlyRequests)

/-- Embedding of `userSchema.methods.incrementUsage` (the usage-recorder
mutation, not part of the reservation check). -/
def incrementUsage (now : Nat) (u : User) : User :=
  { u with usage := ⟨u.usage.totalRequests + 1, u.usage.monthlyRequests + 1, some now⟩ }

/-- Virtual `remainingRequests`: `max(0, planLimit - monthlyUsed)`. -/
def remainingRequests (u : User) : Int :=
  max 0 (u.planLimits.monthlyRequests - (u.usage.monthlyRequests : Int))

/-- Decision of the monthly-quota gate inside `apiKeyAuth`. -/
inductive QuotaDecision
  | limitExceeded (status : Nat) (errorCode : String) (remaining : Int)
  | proceed
  deriving DecidableEq, Repr

/-- The plan-quota step of `AuthMiddleware.apiKeyAuth` (the
`user.canMakeRequest()` gate): it reads the in-memory user document only —
no counter-store operation is issued and the user document is not mutated
by the check itself. -/
def apiKeyAuthQuotaStep (u : User) : QuotaDecision × User × List CounterOp :=
  if canMakeRequest u = false then
    (QuotaDecision.limitExceeded 429 "LIMIT_EXCEEDED" (remainingRequests u), u, [])
  else
    (QuotaDecision.proceed, u, [])

/-! Redis cache wrapper (config/redis.js). -/

/-- Result of one call into the backing Redis client: either a value or a
thrown client error. -/
inductive BackendResult (α : Type)
  | ok (val : α)
  | err
  deriving DecidableEq, Repr

namespace RedisConnection

/-- Embedding of `RedisConnection.get`: when the connection is not ready
the call is skipped and `null` returned; a client error is caught and also
turned into `null`.  The return type is a plain `Option` — no exception
escapes. -/
def get (ready : Bool) (backend : BackendResult (Option String)) : Option String :=
  if ready = false then none
  else
    match backend with
    | BackendResult.ok v => v
    | BackendResult.err => none

/-- Embedding of `RedisConnection.set` (SETEX when a TTL is given, SET
otherwise — both modelled by the same backend call): not-ready and client
errors are swallowed and reported as `false`; success reports `true`.  The
return type is a plain `Bool` — no exception escapes. -/
def set (ready : Bool) (ttl : Option Nat) (backend : BackendResult Unit) : Bool :=
  if ready = false then false
  else
    match backend with
    | BackendResult.ok _ => true
    | BackendResult.err => false

end RedisConnection

/-! API-key model (models/ApiKey.js) and the API-key branch of the
authentication middleware (middleware/auth.js). -/

/-- Credential status enum of the API-key schema. -/
inductive CredStatus
  | active
  | suspended
  | revoked
  deriving DecidableEq, Repr

/-- Usage counters of an API-key document. -/
structure KeyUsage where
  totalRequests : Nat
  monthlyRequests : Nat
  lastUsed : Option Nat
  deriving DecidableEq, Repr

/-- Analytics block of an API-key document. -/
structure KeyAnalytics where
  popularEndpoints : List (String × Nat)
  errorCount : Nat
  avgResponseTime : Rat
  deriving DecidableEq, Repr

/-- The slice of an API-key document the pipeline reads; `user` is the
populated owner document. -/
structure ApiKeyRec where
  key : String
  status : CredStatus
  expiry : Option Nat
  ipWhitelist : List String
  allowedOrigins : List String
  rateLimitOverride : Option Nat
  user : Option User
  usage : KeyUsage
  analytics : KeyAnalytics
  deriving DecidableEq, Repr

/-- Virtual `is_expired`: an expiry is set and now is past it. -/
def ApiKeyRec.isExpired (now : Nat) (r : ApiKeyRec) : Bool :=
  match r.expiry with
  | some e => decide (e < now)
  | none => false

/-- Embedding of `apiKeySchema.methods.isValidForRequest`: active status,
not expired, and the IP / origin restriction lists (when non-empty) must
contain the caller. -/
def isValidForRequest (now : Nat) (r : ApiKeyRec) (ip origin : String) : Bool :=
  if r.status ≠ CredStatus.active then false
  else if r.isExpired now then false
  else if r.ipWhitelist ≠ [] ∧ r.ipWhitelist.contains ip = false then false
  else if r.allowedOrigins ≠ [] ∧ r.allowedOrigins.contains origin = false then false
  else true

/-- Embedding of `apiKeySchema.statics.findByKey`: the lookup matches the
presented secret only against records whose status is `active`. -/
def findByKey (db : List ApiKeyRec) (k : String) : Option ApiKeyRec :=
  db.find? (fun r => decide (r.key = k ∧ r.status = CredStatus.active))

/-- Outcome of `AuthMiddleware.apiKeyAuth`. -/
inductive AuthOutcome
  | failure (status : Nat) (errorCode : String)
  | authorized (rec : ApiKeyRec) (u : User)
  deriving DecidableEq, Repr

/-- Whether the middleware authorized the request. -/
def AuthOutcome.isAuthorized : AuthOutcome → Bool
  | AuthOutcome.failure _ _ => false
  | AuthOutcome.authorized _ _ => true

/-- Embedding of `AuthMiddleware.apiKeyAuth`: missing key → 401
MISSING_API_KEY; no active record with that secret → 403 INVALID_API_KEY;
record invalid for the caller (inactive, expired, IP or origin restricted)
→ 403 ACCESS_DENIED; owner missing or not active → 403 INACTIVE_ACCOUNT;
plan quota exhausted → 429 LIMIT_EXCEEDED; otherwise authorized. -/
def apiKeyAuth (db : List ApiKeyRec) (presented : Option String) (ip origin : String)
    (now : Nat) : AuthOutcome :=
  match presented with
  | none => AuthOutcome.failure 401 "MISSING_API_KEY"
  | some k =>
    match findByKey db k with
    | none => AuthOutcome.failure 403 "INVALID_API_KEY"
    | some rec =>
      if isValidForRequest now rec ip origin = false then
        AuthOutcome.failure 403 "ACCESS_DENIED"
      else
        match rec.user with
        | none => AuthOutcome.failure 403 "INACTIVE_ACCOUNT"
        | some u =>
          if u.status ≠ UserStatus.active then AuthOutcome.failure 403 "INACTIVE_ACCOUNT"
          else if canMakeRequest u = false then AuthOutcome.failure 429 "LIMIT_EXCEEDED"
          else AuthOutcome.authorized rec u

/-! Usage recorder (trackRequestCompletion in middleware/auth.js and the
mutation methods of models/ApiKey.js). -/

/-- Bump the per-endpoint counter list: increment the first entry for the
endpoint, or append a fresh entry with count 1 (find-or-push). -/
def bumpEndpoint : List (String × Nat) → String → List (String × Nat)
  | [], e => [(e, 1)]
  | x :: xs, e => if x.1 = e then (x.1, x.2 + 1) :: xs else x :: bumpEndpoint xs e

/-- Embedding of `apiKeySchema.methods.incrementUsage`. -/
def ApiKeyRec.incrementUsage (now : Nat) (endpoint : String) (r : ApiKeyRec) : ApiKeyRec :=
  { r with
    usage := ⟨r.usage.totalRequests + 1, r.usage.monthlyRequests + 1, some now⟩,
    analytics := { r.analytics with
      popularEndpoints := bumpEndpoint r.analytics.popularEndpoints endpoint } }

/-- Embedding of `apiKeySchema.methods.recordError`. -/
def ApiKeyRec.recordError (r : ApiKeyRec) : ApiKeyRec :=
  { r with analytics := { r.analytics with errorCount := r.analytics.errorCount + 1 } }

/-- Embedding of `apiKeySchema.methods.updateResponseTime`: the moving
average over the post-increment total request count. -/
def ApiKeyRec.updateResponseTime (responseTime : Rat) (r : ApiKeyRec) : ApiKeyRec :=
  { r with analytics := { r.analytics with
      avgResponseTime :=
        (r.analytics.avgResponseTime * ((r.usage.totalRequests : Rat) - 1) + responseTime) /
          (r.usage.totalRequests : Rat) } }

/-- Embedding of `trackRequestCompletion`: on a success status (< 400) the
user and key usage counters and the moving average are updated; on an error
status (>= 400) only the key error counter is bumped. -/
def trackRequestCompletion (now : Nat) (user : Option User) (apiKey : Option ApiKeyRec)
    (statusCode : Nat) (endpoint : String) (responseTime : Rat) :
    Option User × Option ApiKeyRec :=
  let user' :=
    match user with
    | some u => if statusCode < 400 then some (incrementUsage now u) else some u
    | none => none
  let key1 :=
    match apiKey with
    | some r =>
        if statusCode < 400 then
          some (ApiKeyRec.updateResponseTime responseTime (ApiKeyRec.incrementUsage now endpoint r))
        else some r
    | none => none
  let key2 :=
    match key1 with
    | some r => if 400 ≤ statusCode then some (ApiKeyRec.recordError r) else some r
    | none => none
  (user', key2)

/-! Fact resolution pipeline (services/factService.js and the fact
controller). -/

/-- The slice of a fact document the pipeline reads.  Presentation-only
fields of the schema (tags, view counters, timestamps) are omitted.  The
source calls this document `Fact`; the embedding uses `FactDoc` because
`Fact` is taken by the ambient library. -/
structure FactDoc where
  text : String
  category : String
  source : String
  verified : Bool
  aiGenerated : Bool
  deriving DecidableEq, Repr

/-- Fixed category enum of the fact service. -/
def categories : List String :=
  ["science", "history", "technology", "nature", "space", "animals",
   "geography", "sports", "entertainment", "health", "food", "general"]

/-- ASCII lower-casing of one character (String.prototype.toLowerCase as it
acts on the ASCII category strings of this code base). -/
def lowerChar (c : Char) : Char :=
  if 65 ≤ c.toNat ∧ c.toNat ≤ 90 then Char.ofNat (c.toNat + 32) else c

/-- ASCII lower-casing of a string. -/
def lowerStr (s : String) : String :=
  String.mk (s.data.map lowerChar)

/-- Embedding of `FactService.isValidCategory`. -/
def isValidCategory (category : String) : Bool :=
  categories.contains (lowerStr category)

/-- Errors thrown by the fact service. -/
inductive FactErr
  | invalidCategory (category : String)
  | noFactsInCategory (category : String)
  | noFactsAvailable
  | generatorFailed
  | invalidFactText
  | invalidFactData (category : String)
  | contentRejected
  deriving DecidableEq, Repr

/-- Cache / store / generator interactions of one resolution. -/
inductive Effect
  | cacheGet (key : String)
  | cacheSet (key : String) (ttlSeconds : Nat)
  | cacheDel (key : String)
  | dbSample
  | dbFindOne (category : String) (excludeAI : Bool)
  | aiGenerate (category : String)
  | dbInsert (category : String)
  deriving DecidableEq, Repr

/-- Feature flags read from the configuration. -/
structure AIConf where
  fallbackEnabled : Bool
  contentModerationEnabled : Bool
  deriving DecidableEq, Repr

/-- External collaborators of one resolution: current cache contents (the
JSON round-trip through the cache is the identity and is elided), the
persistent-store query results, the generator (an oracle; `none` is a
failed or malformed generator call), and the moderation verdict.  The store
oracles are fixed for the duration of one resolution. -/
structure Env where
  cache : String → Option FactDoc
  dbRandom : Option FactDoc
  dbFindOne : String → Bool → Option FactDoc
  aiFact : String → Option FactDoc
  moderationApproved : String → Bool

/-- Overwrite one cache key. -/
def Env.setCache (env : Env) (key : String) (f : FactDoc) : Env :=
  { env with cache := Function.update env.cache key (some f) }

/-- Delete one cache key. -/
def Env.delCache (env : Env) (key : String) : Env :=
  { env with cache := Function.update env.cache key none }

/-- Options of `FactService.getFactByCategory`. -/
structure CategoryOptions where
  skipCache : Bool
  excludeAI : Bool
  deriving DecidableEq, Repr

/-- Options of `FactService.getRandomFact`. -/
structure RandomOptions where
  category : Option String
  forceNew : Bool
  saveAIFacts : Bool
  deriving DecidableEq, Repr

/-- Embedding of `FactService.validateFactData`: the text must be a string
of 10 to 1000 characters and the category must be in the fixed enum. -/
def validateFactData (f : FactDoc) : Except FactErr Unit :=
  if f.text.length < 10 ∨ 1000 < f.text.length then Except.error FactErr.invalidFactText
  else if isValidCategory f.category = false then Except.error (FactErr.invalidFactData f.category)
  else Except.ok ()

/-- Embedding of `FactService.clearFactCaches`: delete the three cache keys
related to a category. -/
def clearFactCaches (env : Env) (category : String) : Env × List Effect :=
  (Env.delCache (Env.delCache (Env.delCache env "random_fact_any")
      ("random_fact_" ++ category)) ("fact_category_" ++ category),
   [Effect.cacheDel "random_fact_any",
    Effect.cacheDel ("random_fact_" ++ category),
    Effect.cacheDel ("fact_category_" ++ category)])

/-- Embedding of `FactService.addFact`: validate, optionally moderate,
insert into the persistent store and clear the related cache keys.  The
insert is recorded as an effect; the store oracles of `Env` stay fixed for
the resolution in flight. -/
def addFact (conf : AIConf) (env : Env) (f : FactDoc) :
    Except FactErr FactDoc × Env × List Effect :=
  match validateFactData f with
  | Except.error e => (Except.error e, env, [])
  | Except.ok _ =>
    if conf.contentModerationEnabled ∧ f.text ≠ "" then
      if env.moderationApproved f.text = false then
        (Except.error FactErr.contentRejected, env, [])
      else
        let cleared := clearFactCaches env f.category
        (Except.ok f, cleared.1, Effect.dbInsert f.category :: cleared.2)
    else
      let cleared := clearFactCaches env f.category
      (Except.ok f, cleared.1, Effect.dbInsert f.category :: cleared.2)

/-- Embedding of `FactService.getFactByCategory`: validate the category,
check the cache (unless `skipCache`), query the store for a verified fact
of the category (optionally excluding generator-sourced records), fall back
to the generator when enabled, caching a store hit for 1800 seconds and a
generated fact for 600 seconds. -/
def getFactByCategory (conf : AIConf) (env : Env) (category : String)
    (opts : CategoryOptions) : Except FactErr FactDoc × Env × List Effect :=
  if isValidCategory category = false then
    (Except.error (FactErr.invalidCategory category), env, [])
  else
    let cacheKey := "fact_category_" ++ category
    let lookupResult : Option FactDoc := if opts.skipCache then none else env.cache cacheKey
    let lookupTrace : List Effect := if opts.skipCache then [] else [Effect.cacheGet cacheKey]
    match lookupResult with
    | some fact => (Except.ok fact, env, lookupTrace)
    | none =>
      match env.dbFindOne category opts.excludeAI with
      | some fact =>
          (Except.ok fact, Env.setCache env cacheKey fact,
           lookupTrace ++ [Effect.dbFindOne category opts.excludeAI, Effect.cacheSet cacheKey 1800])
      | none =>
          if conf.fallbackEnabled ∧ opts.excludeAI = false then
            match env.aiFact category with
            | none =>
                (Except.error FactErr.generatorFailed, env,
                 lookupTrace ++ [Effect.dbFindOne category opts.excludeAI,
                   Effect.aiGenerate category])
            | some aiFact =>
                (Except.ok aiFact, Env.setCache env cacheKey aiFact,
                 lookupTrace ++ [Effect.dbFindOne category opts.excludeAI,
                   Effect.aiGenerate category, Effect.cacheSet cacheKey 600])
          else
            (Except.error (FactErr.noFactsInCategory category), env,
             lookupTrace ++ [Effect.dbFindOne category opts.excludeAI])

/-- Embedding of `FactService.getRandomFact`: read the cache entry for the
deterministic key `random_fact_CATEGORY` (or `random_fact_any`); serve a
hit unless `forceNew`; otherwise query the store (through
`getFactByCategory` with `skipCache` for a category request, through a
uniform random sample otherwise); fall back to the generator when enabled,
persisting the generated fact unless the caller opted out; finally cache
the result for 300 seconds. -/
def getRandomFact (conf : AIConf) (env : Env) (opts : RandomOptions) :
    Except FactErr FactDoc × Env × List Effect :=
  let cacheKey := "random_fact_" ++ opts.category.getD "any"
  let cached := env.cache cacheKey
  let getTrace := [Effect.cacheGet cacheKey]
  if h : cached.isSome ∧ opts.forceNew = false then
    (Except.ok (cached.get h.1), env, getTrace)
  else
    match opts.category with
    | some cat =>
      match getFactByCategory conf env cat ⟨true, false⟩ with
      | (Except.ok fact, env1, tr) =>
          (Except.ok fact, Env.setCache env1 cacheKey fact,
           getTrace ++ tr ++ [Effect.cacheSet cacheKey 300])
      | (Except.error e, env1, tr) => (Except.error e, env1, getTrace ++ tr)
    | none =>
      match env.dbRandom with
      | some fact =>
          (Except.ok fact, Env.setCache env cacheKey fact,
           getTrace ++ [Effect.dbSample, Effect.cacheSet cacheKey 300])
      | none =>
        if conf.fallbackEnabled then
          match env.aiFact "general" with
          | none =>
              (Except.error FactErr.generatorFailed, env,
               getTrace ++ [Effect.dbSample, Effect.aiGenerate "general"])
          | some fact =>
            if opts.saveAIFacts then
              match addFact conf env
                  { fact with source := "AI Generated", verified := false, aiGenerated := true } with
              | (Except.ok _, env2, tr2) =>
                  (Except.ok fact, Env.setCache env2 cacheKey fact,
                   getTrace ++ [Effect.dbSample, Effect.aiGenerate "general"] ++ tr2 ++
                     [Effect.cacheSet cacheKey 300])
              | (Except.error e, env2, tr2) =>
                  (Except.error e, env2,
                   getTrace ++ [Effect.dbSample, Effect.aiGenerate "general"] ++ tr2)
            else
              (Except.ok fact, Env.setCache env cacheKey fact,
               getTrace ++ [Effect.dbSample, Effect.aiGenerate "general"] ++
                 [Effect.cacheSet cacheKey 300])
        else
          (Except.error FactErr.noFactsAvailable, env, getTrace ++ [Effect.dbSample])

/-- Response metadata attached by `FactController.getRandomFact`: the
source label is derived from the `ai_generated` flag of the served fact and
the `cached` field is the literal `false`. -/
structure RespMeta where
  sourceLabel : String
  cached : Bool
  deriving DecidableEq, Repr

/-- Embedding of the success path of `FactController.getRandomFact`: call
the service and attach the metadata; a thrown service error is forwarded to
the error handler. -/
def controllerGetRandomFact (conf : AIConf) (env : Env) (opts : RandomOptions) :
    Except FactErr (FactDoc × RespMeta) × Env × List Effect :=
  match getRandomFact conf env opts with
  | (Except.ok fact, env', tr) =>
      (Except.ok (fact, ⟨if fact.aiGenerated then "ai" else "database", false⟩), env', tr)
  | (Except.error e, env', tr) => (Except.error e, env', tr)

/-! JSON serialization of API keys (the toJSON transform of
models/ApiKey.js). -/

/-- Mask of a secret: first four characters, the literal three dots, last
four characters. -/
def maskedKey (k : String) : String :=
  String.mk (k.data.take 4) ++ "..." ++ String.mk (k.data.drop (k.data.length - 4))

/-- Embedding of the `toJSON` transform of the API-key schema, restricted
to the `key` / `masked_key` fields it rewrites: when a truthy key longer
than 8 characters is present, the key field is deleted and `masked_key`
takes its place; the pair returned is `(key field, masked_key field)`. -/
def maskKeyTransform (key : Option String) : Option String × Option String :=
  match key with
  | some k =>
      if 0 < k.length ∧ 8 < k.length then (none, some (maskedKey k))
      else (some k, none)
  | none => (none, none)

/-! Concrete instances used by the witness and counterexample theorems. -/

/-- Counter store of the C1 witness: the window of the aligned start 0
already holds 2 reservations; all other windows are empty. -/
def exhaustedStore : CounterStore :=
  fun p => if p = ("k", 0) then 2 else 0

/-- Final state of the witness run for C2: two concurrent reservations with
limit 1 over a counter starting at 0 both read 0, then both increment — the
counter ends at 2 = limit - 1 + concurrency degree. -/
def raceFinal : RaceState :=
  ⟨2, [ReqPhase.finished true, ReqPhase.finished true]⟩

/-- Environment with an empty cache, empty store and no generator result. -/
def envNone : Env :=
  ⟨fun _ => none, none, fun _ _ => none, fun _ => none, fun _ => true⟩

/-- Cached fact used by the C5 scenario (a stored, non-generated fact). -/
def hitFact : FactDoc :=
  ⟨"The quick brown fox jumps over the lazy dog", "science", "Curated", true, false⟩

/-- Environment whose cache is populated at the unfiltered random-fact key. -/
def envHit : Env :=
  ⟨fun k => if k = "random_fact_any" then some hitFact else none,
   none, fun _ _ => none, fun _ => none, fun _ => true⟩

/-- Owner identity of the revoked credential in the C6 scenario: the
identity itself is fully active. -/
def ownerUser : User :=
  ⟨UserStatus.active, Plan.basic, ⟨1000, []⟩, ⟨0, 0, none⟩⟩

/-- Credential database of the C6 scenario: one revoked key owned by an
active identity. -/
def revokedDb : List ApiKeyRec :=
  [⟨"rfg_live_123", CredStatus.revoked, none, [], [], none, some ownerUser,
    ⟨0, 0, none⟩, ⟨[], 0, 0⟩⟩]

/-- Stored fact used by the C8 scenarios. -/
def dbFact : FactDoc :=
  ⟨"Bananas are botanically berries while strawberries are not", "science", "Curated", true, false⟩

/-- Generated fact used by the C8 scenarios. -/
def genFact : FactDoc :=
  ⟨"Octopuses have three hearts and blue copper-based blood", "history", "AI", false, false⟩

/-- Environment for the C8 scenarios: empty cache, a stored science fact,
no stored history fact, and a working generator. -/
def envTiered : Env :=
  ⟨fun _ => none, some dbFact,
   fun c _ => if c = "science" then some dbFact else none,
   fun _ => some genFact, fun _ => true⟩

/-- Environment for the unfiltered C8 scenario: empty cache and a stored
fact for the random sample. -/
def envSample : Env :=
  ⟨fun _ => none, some dbFact, fun _ _ => none, fun _ => none, fun _ => true⟩

/-! Helper lemmas. -/

/-- Truncation to a window: inside the aligned window starting at `ws`, the
computed window start is `ws` itself. -/
lemma windowStartMs_of_mem (durationMs ws now : Nat) (hws : ws % durationMs = 0)
    (h1 : ws ≤ now) (h2 : now < ws + durationMs) :
    windowStartMs durationMs now = ws := by
  obtain ⟨q, hq⟩ := Nat.dvd_of_mod_eq_zero hws
  have hrep : now = durationMs * q + (now - ws) := by omega
  have hmod : now % durationMs = now - ws := by
    conv_lhs => rw [hrep]
    rw [Nat.mul_add_mod]
    exact Nat.mod_eq_of_lt (by omega)
  unfold windowStartMs
  omega

/-- Truncation to a window: at or after the end of the aligned window
starting at `ws`, the computed window start has moved past `ws`. -/
lemma windowStartMs_of_past (durationMs ws now : Nat) (hpos : 0 < durationMs)
    (h : ws + durationMs ≤ now) :
    ws < windowStartMs durationMs now := by
  have hlt : now % durationMs < durationMs := Nat.mod_lt _ hpos
  unfold windowStartMs
  omega

/-- Replacing a list element exchanges its contribution to `countP`. -/
lemma countP_set_exchange (p : ReqPhase → Bool) (l : List ReqPhase) (i : Nat)
    (a b : ReqPhase) (h : l.get? i = some a) :
    (l.set i b).countP p + (if p a then 1 else 0) =
      l.countP p + (if p b then 1 else 0) := by
  induction l generalizing i with
  | nil => simp at h
  | cons x xs ih =>
    cases i with
    | zero =>
      simp only [List.get?_cons_zero, Option.some.injEq] at h
      subst h
      simp only [List.set_cons_zero, List.countP_cons]
      omega
    | succ n =>
      simp only [List.get?_cons_succ] at h
      simp only [List.set_cons_succ, List.countP_cons]
      have := ih n h
      omega

/-- No reservation has gone through in the initial race state. -/
lemma countAllowed_replicate_pending (n : Nat) :
    countAllowed (List.replicate n ReqPhase.pending) = 0 := by
  induction n with
  | zero => rfl
  | succ m ih =>
    simp only [List.replicate_succ, countAllowed, List.countP_cons] at *
    simp [ih, isAllowedPhase]

/-- One race step preserves the number of racers and the relation between
the shared counter and the number of reservations that went through. -/
lemma race_step_invariant (limitMax c0 : Nat) (s t : RaceState)
    (hstep : RaceStep limitMax s t)
    (hcnt : s.counter = c0 + countAllowed s.reqs) :
    t.reqs.length = s.reqs.length ∧ t.counter = c0 + countAllowed t.reqs := by
  cases hstep with
  | read i h' =>
    refine ⟨List.length_set _ _ _, ?_⟩
    have hx := countP_set_exchange isAllowedPhase s.reqs i ReqPhase.pending
      (ReqPhase.observed s.counter) h'
    simp [isAllowedPhase] at hx
    simp only [countAllowed] at *
    omega
  | pass i v h' hv =>
    refine ⟨List.length_set _ _ _, ?_⟩
    have hx := countP_set_exchange isAllowedPhase s.reqs i (ReqPhase.observed v)
      (ReqPhase.finished true) h'
    simp [isAllowedPhase] at hx
    simp only [countAllowed] at *
    omega
  | deny i v h' hv =>
    refine ⟨List.length_set _ _ _, ?_⟩
    have hx := countP_set_exchange isAllowedPhase s.reqs i (ReqPhase.observed v)
      (ReqPhase.finished false) h'
    simp [isAllowedPhase] at hx
    simp only [countAllowed] at *
    omega

/-- Race invariant along any interleaving from the initial state: the
number of racers never changes, and the shared counter is exactly the
initial value plus the number of reservations that went through. -/
lemma race_reach_invariant (limitMax c0 n : Nat) (s : RaceState)
    (h : Relation.ReflTransGen (RaceStep limitMax)
      ⟨c0, List.replicate n ReqPhase.pending⟩ s) :
    s.reqs.length = n ∧ s.counter = c0 + countAllowed s.reqs := by
  induction h with
  | refl => exact ⟨List.length_replicate _ _, by simp [countAllowed_replicate_pending]⟩
  | tail _ hstep ih =>
    obtain ⟨ihlen, ihcnt⟩ := ih
    obtain ⟨hlen, hcnt⟩ := race_step_invariant _ c0 _ _ hstep ihcnt
    exact ⟨hlen.trans ihlen, hcnt⟩

/-! Claim theorems. -/

/-- C1: for an identity whose effective limit is a finite `L` per window of
`D = windowMinutes` minutes, once the counter of the aligned window
starting at `ws` holds `L` recorded reservations (and fresh windows are
empty), every further call inside that window is denied with HTTP 429 and
the quota error code, reporting usage `L` of limit `L` — so the derived
remaining budget is 0 — without touching the store; this persists up to
`ws + D`, and any call at or after `ws + D` lands in a fresh window and is
allowed again.  The last conjunct shows reservations are recorded: a call
that sees `c < L` bumps the window counter to `c + 1`. -/
theorem fixed_window_exhaustion_and_reset
    (store : CounterStore) (keyId : String) (conf : RateLimitConf) (ws : Nat)
    (hD : 0 < conf.windowMinutes) (hL : 0 < conf.maxRequests)
    (hws : ws % (conf.windowMinutes * 60000) = 0)
    (hcount : store (keyId, ws) = conf.maxRequests)
    (hfresh : ∀ w, w ≠ ws → store (keyId, w) = 0) :
    (∀ now, ws ≤ now → now < ws + conf.windowMinutes * 60000 →
      (customRateLimit store keyId conf now).1 =
        RLOutcome.denied 429 "USER_RATE_LIMIT_EXCEEDED" conf.maxRequests conf.maxRequests
          (ws + conf.windowMinutes * 60000) ∧
      (customRateLimit store keyId conf now).1.remaining = 0 ∧
      (customRateLimit store keyId conf now).2.1 = store) ∧
    (∀ now, ws + conf.windowMinutes * 60000 ≤ now →
      (customRateLimit store keyId conf now).1.isAllowed = true) ∧
    (∀ (store' : CounterStore) (now c : Nat),
      windowStartMs (conf.windowMinutes * 60000) now = ws →
      store' (keyId, ws) = c → c < conf.maxRequests →
      (customRateLimit store' keyId conf now).1.isAllowed = true ∧
      (customRateLimit store' keyId conf now).2.1 (keyId, ws) = c + 1) := by
  have hD0 : 0 < conf.windowMinutes * 60000 := by positivity
  refine ⟨?_, ?_, ?_⟩
  · intro now h1 h2
    have hwnow : windowStartMs (conf.windowMinutes * 60000) now = ws :=
      windowStartMs_of_mem _ _ _ hws h1 h2
    refine ⟨?_, ?_, ?_⟩
    · simp [customRateLimit, hwnow, hcount]
    · simp [customRateLimit, hwnow, hcount, RLOutcome.remaining]
    · simp [customRateLimit, hwnow, hcount]
  · intro now hpast
    have hne : windowStartMs (conf.windowMinutes * 60000) now ≠ ws := by
      have := windowStartMs_of_past (conf.windowMinutes * 60000) ws now hD0 hpast
      omega
    have hzero : store (keyId, windowStartMs (conf.windowMinutes * 60000) now) = 0 :=
      hfresh _ hne
    simp [customRateLimit, hzero, RLOutcome.isAllowed, Nat.not_le.mpr hL]
  · intro store' now c hwnow hc hlt
    have hnotle : ¬ conf.maxRequests ≤ c := by omega
    constructor
    · simp [customRateLimit, hwnow, hc, hnotle, RLOutcome.isAllowed]
    · simp [customRateLimit, hwnow, hc, hnotle, atomicIncr, Function.update_same]

/-- Witness for C1: with limit 2 per 15-minute window and the window at 0
exhausted, a call at 5 ms is denied with 429 / usage 2 of 2 / remaining 0,
and a call at 900000 ms (the next window) is allowed again. -/
theorem fixed_window_exhaustion_and_reset_witness :
    (customRateLimit exhaustedStore "k" ⟨2, 15⟩ 5).1 =
      RLOutcome.denied 429 "USER_RATE_LIMIT_EXCEEDED" 2 2 900000 ∧
    (customRateLimit exhaustedStore "k" ⟨2, 15⟩ 5).1.remaining = 0 ∧
    (customRateLimit exhaustedStore "k" ⟨2, 15⟩ 900000).1.isAllowed = true := by
  have T := fixed_window_exhaustion_and_reset exhaustedStore "k" ⟨2, 15⟩ 0
    (by decide) (by decide) (by decide) rfl
    (by
      intro w hw
      simp [exhaustedStore, Prod.ext_iff, hw])
  have hin := T.1 5 (by omega) (by norm_num)
  exact ⟨hin.1, hin.2.1, T.2.1 900000 (by norm_num)⟩

/-- Counterexample for C2: at a concrete input the reservation issues a GET
followed by a separate INCR — two counter-store operations — so the check
and the increment are not performed as one atomic test-and-increment
operation. -/
theorem quota_check_and_increment_not_one_operation :
    (customRateLimit (fun _ => 0) "k2" ⟨100, 15⟩ 0).2.2 =
      [CounterOp.get ("k2", 0), CounterOp.incr ("k2", 0) 900] ∧
    ¬ isSingleAtomicTestAndIncrement (customRateLimit (fun _ => 0) "k2" ⟨100, 15⟩ 0).2.2 := by
  have htr : (customRateLimit (fun _ => 0) "k2" ⟨100, 15⟩ 0).2.2 =
      [CounterOp.get ("k2", 0), CounterOp.incr ("k2", 0) 900] := by decide
  refine ⟨htr, ?_⟩
  rw [htr]
  rintro ⟨key, ttlSeconds, heq⟩
  simp at heq

/-- C2 (amended): every reservation issues a separate counter read followed
(when allowed) by a separate atomic increment, rather than one combined
test-and-increment; the counter is still never updated by an
application-layer plain write (no read-modify-write SET appears in any
trace); and because each racer increments at most once, any interleaving of
`n` concurrent reservations over a counter starting at `c0 < limitMax`
leaves the counter at most `limitMax - 1 + n`, i.e. the overshoot is
bounded by the concurrency degree. -/
theorem quota_reservation_separate_read_bounded_overshoot
    (store : CounterStore) (keyId : String) (conf : RateLimitConf) (now : Nat)
    (limitMax c0 n : Nat) (s : RaceState)
    (hreach : Relation.ReflTransGen (RaceStep limitMax)
      ⟨c0, List.replicate n ReqPhase.pending⟩ s)
    (hc0 : c0 < limitMax) :
    ((customRateLimit store keyId conf now).2.2 =
        [CounterOp.get (keyId, windowStartMs (conf.windowMinutes * 60000) now)] ∨
      (customRateLimit store keyId conf now).2.2 =
        [CounterOp.get (keyId, windowStartMs (conf.windowMinutes * 60000) now),
         CounterOp.incr (keyId, windowStartMs (conf.windowMinutes * 60000) now)
           (conf.windowMinutes * 60)]) ∧
    ¬ usesPlainCounterWrite (customRateLimit store keyId conf now).2.2 ∧
    s.counter ≤ limitMax - 1 + n := by
  have htr : (customRateLimit store keyId conf now).2.2 =
        [CounterOp.get (keyId, windowStartMs (conf.windowMinutes * 60000) now)] ∨
      (customRateLimit store keyId conf now).2.2 =
        [CounterOp.get (keyId, windowStartMs (conf.windowMinutes * 60000) now),
         CounterOp.incr (keyId, windowStartMs (conf.windowMinutes * 60000) now)
           (conf.windowMinutes * 60)] := by
    by_cases hcond : conf.maxRequests ≤ store (keyId, windowStartMs (conf.windowMinutes * 60000) now)
    · exact Or.inl (by simp [customRateLimit, hcond])
    · exact Or.inr (by simp [customRateLimit, hcond])
  refine ⟨htr, ?_, ?_⟩
  · rintro ⟨key, v, hmem⟩
    rcases htr with htr | htr <;> rw [htr] at hmem <;> simp at hmem
  · obtain ⟨hlen, hcnt⟩ := race_reach_invariant limitMax c0 n s hreach
    have hle : countAllowed s.reqs ≤ s.reqs.length := List.countP_le_length _
    omega

/-- Witness for C2: the concrete two-racer interleaving (read, read, incr,
incr) reaches `raceFinal`, whose counter satisfies the overshoot bound, and
the concrete reservation trace contains no plain counter write. -/
theorem quota_reservation_separate_read_bounded_overshoot_witness :
    raceFinal.counter ≤ 1 - 1 + 2 ∧
    ¬ usesPlainCounterWrite (customRateLimit (fun _ => 0) "k3" ⟨100, 15⟩ 0).2.2 := by
  have s1 : RaceStep 1 ⟨0, [ReqPhase.pending, ReqPhase.pending]⟩
      ⟨0, [ReqPhase.observed 0, ReqPhase.pending]⟩ :=
    RaceStep.read ⟨0, [ReqPhase.pending, ReqPhase.pending]⟩ 0 rfl
  have s2 : RaceStep 1 ⟨0, [ReqPhase.observed 0, ReqPhase.pending]⟩
      ⟨0, [ReqPhase.observed 0, ReqPhase.observed 0]⟩ :=
    RaceStep.read ⟨0, [ReqPhase.observed 0, ReqPhase.pending]⟩ 1 rfl
  have s3 : RaceStep 1 ⟨0, [ReqPhase.observed 0, ReqPhase.observed 0]⟩
      ⟨1, [ReqPhase.finished true, ReqPhase.observed 0]⟩ :=
    RaceStep.pass ⟨0, [ReqPhase.observed 0, ReqPhase.observed 0]⟩ 0 0 rfl (by decide)
  have s4 : RaceStep 1 ⟨1, [ReqPhase.finished true, ReqPhase.observed 0]⟩
      ⟨2, [ReqPhase.finished true, ReqPhase.finished true]⟩ :=
    RaceStep.pass ⟨1, [ReqPhase.finished true, ReqPhase.observed 0]⟩ 1 0 rfl (by decide)
  have hreach : Relation.ReflTransGen (RaceStep 1)
      ⟨0, List.replicate 2 ReqPhase.pending⟩ raceFinal :=
    Relation.ReflTransGen.head s1 (Relation.ReflTransGen.head s2
      (Relation.ReflTransGen.head s3 (Relation.ReflTransGen.head s4
        Relation.ReflTransGen.refl)))
  have T := quota_reservation_separate_read_bounded_overshoot (fun _ => 0) "k3" ⟨100, 15⟩ 0
    1 0 2 raceFinal hreach (by decide)
  exact ⟨T.2.2, T.2.1⟩

/-- C3: for every identity whose plan limit is the unlimited sentinel
(`monthly_requests = -1`) and whose account is active, the monthly-quota
reservation check always answers Allowed — regardless of how much usage has
accumulated — and the reservation itself mutates nothing and issues no
counter-store operation. -/
theorem unlimited_sentinel_always_allowed (u : User)
    (hstat : u.status = UserStatus.active)
    (hlim : u.planLimits.monthlyRequests = -1) :
    canMakeRequest u = true ∧
    apiKeyAuthQuotaStep u = (QuotaDecision.proceed, u, []) := by
  have hc : canMakeRequest u = true := by
    simp [canMakeRequest, hstat, hlim]
  exact ⟨hc, by simp [apiKeyAuthQuotaStep, hc]⟩

/-- Witness for C3: a concrete platinum account with the sentinel limit and
heavy accumulated usage is still allowed, without any mutation. -/
theorem unlimited_sentinel_always_allowed_witness :
    canMakeRequest ⟨UserStatus.active, Plan.platinum, ⟨-1, []⟩, ⟨999999, 999999, none⟩⟩ = true ∧
    apiKeyAuthQuotaStep ⟨UserStatus.active, Plan.platinum, ⟨-1, []⟩, ⟨999999, 999999, none⟩⟩ =
      (QuotaDecision.proceed,
       ⟨UserStatus.active, Plan.platinum, ⟨-1, []⟩, ⟨999999, 999999, none⟩⟩, []) :=
  unlimited_sentinel_always_allowed _ rfl rfl

/-- Counterexample for C4: for the request with the out-of-enum category
`atlantis`, the resolver does reject with the invalid-category error, but
only after performing a cache get on the derived key — the trace of the
request contains a cache access, so the rejection does not happen before
any cache access. -/
theorem invalid_category_cache_get_counterexample :
    (getRandomFact ⟨true, false⟩ envNone ⟨some "atlantis", false, true⟩).1 =
      Except.error (FactErr.invalidCategory "atlantis") ∧
    (getRandomFact ⟨true, false⟩ envNone ⟨some "atlantis", false, true⟩).2.2 =
      [Effect.cacheGet "random_fact_atlantis"] ∧
    Effect.cacheGet "random_fact_atlantis" ∈
      (getRandomFact ⟨true, false⟩ envNone ⟨some "atlantis", false, true⟩).2.2 :=
  ⟨rfl, by decide, by decide⟩

/-- C4 (amended): a category outside the fixed enum is rejected with the
invalid-category error before any store query, generator call or cache
write; the direct category lookup rejects before any cache access at all,
while the random-fact entry point performs exactly one cache get on the
derived key before rejecting. -/
theorem invalid_category_rejected_before_store (conf : AIConf) (env : Env)
    (category : String) (opts : CategoryOptions) (fNew save : Bool)
    (hcat : isValidCategory category = false)
    (hmiss : env.cache ("random_fact_" ++ category) = none) :
    getFactByCategory conf env category opts =
      (Except.error (FactErr.invalidCategory category), env, []) ∧
    getRandomFact conf env ⟨some category, fNew, save⟩ =
      (Except.error (FactErr.invalidCategory category), env,
       [Effect.cacheGet ("random_fact_" ++ category)]) := by
  have h2 : getFactByCategory conf env category ⟨true, false⟩ =
      (Except.error (FactErr.invalidCategory category), env, []) := by
    simp [getFactByCategory, hcat]
  refine ⟨by simp [getFactByCategory, hcat], ?_⟩
  simp [getRandomFact, hmiss, h2]

/-- Witness for C4 (amended): the concrete category `atlantis` is rejected
with no effects by the direct lookup and with a single cache get by the
random-fact entry point. -/
theorem invalid_category_rejected_before_store_witness :
    getFactByCategory ⟨true, false⟩ envNone "atlantis" ⟨false, false⟩ =
      (Except.error (FactErr.invalidCategory "atlantis"), envNone, []) ∧
    getRandomFact ⟨true, false⟩ envNone ⟨some "atlantis", false, true⟩ =
      (Except.error (FactErr.invalidCategory "atlantis"), envNone,
       [Effect.cacheGet "random_fact_atlantis"]) :=
  invalid_category_rejected_before_store ⟨true, false⟩ envNone "atlantis" ⟨false, false⟩
    false true (by decide) rfl

/-- Counterexample for C5: on a populated, unexpired cache entry the
response is served from the cache, but the attached source label is
`database` (taken from the ai_generated flag of the fact), not `cache` —
the code never reports source=cache. -/
theorem cache_hit_source_label_counterexample :
    (controllerGetRandomFact ⟨true, false⟩ envHit ⟨none, false, true⟩).1 =
      Except.ok (hitFact, ⟨"database", false⟩) ∧
    ("database" : String) ≠ "cache" :=
  ⟨rfl, by decide⟩

/-- C5 (amended): with a populated cache entry under the deterministic key
and no forceNew flag, the resolver returns exactly that entry and its trace
is the single cache get — no store query, no generator call, no cache
write; the controller labels the response source `ai` or `database`
according to the ai_generated flag of the fact (never `cache`) and reports
`cached = false`. -/
theorem cache_hit_serves_entry_without_store (conf : AIConf) (env : Env)
    (opts : RandomOptions) (f : FactDoc)
    (hhit : env.cache ("random_fact_" ++ opts.category.getD "any") = some f)
    (hforce : opts.forceNew = false) :
    getRandomFact conf env opts =
      (Except.ok f, env, [Effect.cacheGet ("random_fact_" ++ opts.category.getD "any")]) ∧
    controllerGetRandomFact conf env opts =
      (Except.ok (f, ⟨if f.aiGenerated then "ai" else "database", false⟩), env,
       [Effect.cacheGet ("random_fact_" ++ opts.category.getD "any")]) := by
  have h1 : getRandomFact conf env opts =
      (Except.ok f, env, [Effect.cacheGet ("random_fact_" ++ opts.category.getD "any")]) := by
    simp [getRandomFact, hhit, hforce]
  exact ⟨h1, by simp [controllerGetRandomFact, h1]⟩

/-- Witness for C5 (amended): the concrete populated cache serves its
entry with a one-element trace, labelled `database` with `cached = false`. -/
theorem cache_hit_serves_entry_without_store_witness :
    getRandomFact ⟨true, false⟩ envHit ⟨none, false, true⟩ =
      (Except.ok hitFact, envHit, [Effect.cacheGet "random_fact_any"]) ∧
    controllerGetRandomFact ⟨true, false⟩ envHit ⟨none, false, true⟩ =
      (Except.ok (hitFact, ⟨"database", false⟩), envHit,
       [Effect.cacheGet "random_fact_any"]) :=
  cache_hit_serves_entry_without_store ⟨true, false⟩ envHit ⟨none, false, true⟩ hitFact rfl rfl

/-- Counterexample for C6: presenting the revoked credential of an active
identity is rejected — but with the unknown-credential error
(`INVALID_API_KEY`), not the credential-inactive error kind
(`ACCESS_DENIED`, the rejection produced by the status/expiry check), since
the lookup only matches active credentials. -/
theorem revoked_credential_error_kind_counterexample :
    apiKeyAuth revokedDb (some "rfg_live_123") "1.2.3.4" "https://app.example" 0 =
      AuthOutcome.failure 403 "INVALID_API_KEY" ∧
    apiKeyAuth revokedDb (some "rfg_live_123") "1.2.3.4" "https://app.example" 0 ≠
      AuthOutcome.failure 403 "ACCESS_DENIED" :=
  ⟨by decide, by decide⟩

/-- C6 (amended): a credential whose stored record is revoked (or in any
non-active status) never authorizes a request, regardless of the owning
identity; it is rejected with the unknown-credential error
(`INVALID_API_KEY`), because the credential lookup filters on active
status, so the dedicated credential-inactive rejection is unreachable for
such keys. -/
theorem inactive_credential_never_authorizes (db : List ApiKeyRec)
    (k ip origin : String) (now : Nat)
    (hinactive : ∀ r ∈ db, r.key = k → r.status ≠ CredStatus.active) :
    apiKeyAuth db (some k) ip origin now = AuthOutcome.failure 403 "INVALID_API_KEY" ∧
    (apiKeyAuth db (some k) ip origin now).isAuthorized = false := by
  have hfind : findByKey db k = none := by
    rw [findByKey, List.find?_eq_none]
    intro r hr
    simp only [decide_eq_true_eq]
    rintro ⟨hkey, hstat⟩
    exact hinactive r hr hkey hstat
  constructor
  · simp [apiKeyAuth, hfind]
  · simp [apiKeyAuth, hfind, AuthOutcome.isAuthorized]

/-- Witness for C6 (amended): the concrete revoked credential is rejected
as an unknown credential and is never authorized. -/
theorem inactive_credential_never_authorizes_witness :
    apiKeyAuth revokedDb (some "rfg_live_123") "10.0.0.7" "https://other.example" 99 =
      AuthOutcome.failure 403 "INVALID_API_KEY" ∧
    (apiKeyAuth revokedDb (some "rfg_live_123") "10.0.0.7" "https://other.example" 99).isAuthorized
      = false :=
  inactive_credential_never_authorizes revokedDb "rfg_live_123" "10.0.0.7"
    "https://other.example" 99
    (by
      intro r hr hk
      simp only [revokedDb, List.mem_singleton] at hr
      subst hr
      decide)

/-- C7: the cache wrapper fails open. A GET that hits a backing-store error
or an unavailable connection reports the value as absent (and, by its total
`Option` result type, never propagates an exception); a SET that hits a
backing-store error or an unavailable connection swallows it and reports
`false` (and, by its total `Bool` result type, never propagates an
exception). -/
theorem cache_get_set_fail_open :
    (∀ backend, RedisConnection.get false backend = none) ∧
    (∀ ready, RedisConnection.get ready BackendResult.err = none) ∧
    (∀ v, RedisConnection.get true (BackendResult.ok v) = v) ∧
    (∀ ttl backend, RedisConnection.set false ttl backend = false) ∧
    (∀ ready ttl, RedisConnection.set ready ttl BackendResult.err = false) ∧
    (∀ ttl, RedisConnection.set true ttl (BackendResult.ok ()) = true) := by
  refine ⟨fun backend => rfl, fun ready => ?_, fun v => rfl, fun ttl backend => rfl,
    fun ready ttl => ?_, fun ttl => rfl⟩
  · cases ready <;> rfl
  · cases ready <;> rfl

/-- Counterexample for C8: a category store hit is written through with TTL
1800 seconds while the generated fact for the same kind of request is
cached for 600 seconds — the store-hit TTL is not shorter than the
generated-fact TTL. -/
theorem store_hit_ttl_not_shorter_counterexample :
    (getFactByCategory ⟨true, false⟩ envTiered "science" ⟨false, false⟩).2.2 =
      [Effect.cacheGet "fact_category_science", Effect.dbFindOne "science" false,
       Effect.cacheSet "fact_category_science" 1800] ∧
    (getFactByCategory ⟨true, false⟩ envTiered "history" ⟨false, false⟩).2.2 =
      [Effect.cacheGet "fact_category_history", Effect.dbFindOne "history" false,
       Effect.aiGenerate "history", Effect.cacheSet "fact_category_history" 600] ∧
    ¬ (1800 < 600) :=
  ⟨by decide, by decide, by decide⟩

/-- C8 (amended): a store hit is written through to the cache, but with TTL
1800 seconds (30 minutes) on the category path — three times the 600
seconds used for a generated fact on the same path — and with TTL 300
seconds on the unfiltered path; the generated-fact TTL is the shorter one
(600 < 1800), the reverse of the claimed direction. -/
theorem store_hit_write_through_ttls (conf : AIConf) (env1 env2 env3 : Env)
    (category1 category2 : String) (f1 f2 f3 : FactDoc) (save : Bool)
    (hcat1 : isValidCategory category1 = true)
    (hmiss1 : env1.cache ("fact_category_" ++ category1) = none)
    (hdb1 : env1.dbFindOne category1 false = some f1)
    (hfb : conf.fallbackEnabled = true)
    (hcat2 : isValidCategory category2 = true)
    (hmiss2 : env2.cache ("fact_category_" ++ category2) = none)
    (hdb2 : env2.dbFindOne category2 false = none)
    (hai2 : env2.aiFact category2 = some f2)
    (hmiss3 : env3.cache "random_fact_any" = none)
    (hdb3 : env3.dbRandom = some f3) :
    (getFactByCategory conf env1 category1 ⟨false, false⟩).2.2 =
      [Effect.cacheGet ("fact_category_" ++ category1), Effect.dbFindOne category1 false,
       Effect.cacheSet ("fact_category_" ++ category1) 1800] ∧
    (getFactByCategory conf env2 category2 ⟨false, false⟩).2.2 =
      [Effect.cacheGet ("fact_category_" ++ category2), Effect.dbFindOne category2 false,
       Effect.aiGenerate category2, Effect.cacheSet ("fact_category_" ++ category2) 600] ∧
    (getRandomFact conf env3 ⟨none, false, save⟩).2.2 =
      [Effect.cacheGet "random_fact_any", Effect.dbSample,
       Effect.cacheSet "random_fact_any" 300] ∧
    600 < 1800 := by
  refine ⟨?_, ?_, ?_, by norm_num⟩
  · simp [getFactByCategory, hcat1, hmiss1, hdb1]
  · simp [getFactByCategory, hcat2, hmiss2, hdb2, hai2, hfb]
  · simp [getRandomFact, hmiss3, hdb3]

/-- Witness for C8 (amended): the concrete environments realize the three
write-through traces with TTLs 1800, 600 and 300 seconds. -/
theorem store_hit_write_through_ttls_witness :
    (getFactByCategory ⟨true, false⟩ envTiered "science" ⟨false, false⟩).2.2 =
      [Effect.cacheGet "fact_category_science", Effect.dbFindOne "science" false,
       Effect.cacheSet "fact_category_science" 1800] ∧
    (getFactByCategory ⟨true, false⟩ envTiered "history" ⟨false, false⟩).2.2 =
      [Effect.cacheGet "fact_category_history", Effect.dbFindOne "history" false,
       Effect.aiGenerate "history", Effect.cacheSet "fact_category_history" 600] ∧
    (getRandomFact ⟨true, false⟩ envSample ⟨none, false, true⟩).2.2 =
      [Effect.cacheGet "random_fact_any", Effect.dbSample,
       Effect.cacheSet "random_fact_any" 300] ∧
    600 < 1800 :=
  store_hit_write_through_ttls ⟨true, false⟩ envTiered envTiered envSample
    "science" "history" dbFact genFact dbFact true
    (by decide) (by decide) (by decide) rfl (by decide) (by decide) (by decide)
    (by decide) (by decide) (by decide)

/-- C9: a request that completes with an error status (>= 400) makes the
usage recorder bump only the error counter of the credential: the identity
document is returned untouched, and on the credential only `error_count`
changes — the total and monthly request counters, the moving-average
response time and the per-endpoint statistics all stay as they were. -/
theorem error_status_only_bumps_error_counter (now : Nat) (user : Option User)
    (apiKey : Option ApiKeyRec) (statusCode : Nat) (endpoint : String)
    (responseTime : Rat) (herr : 400 ≤ statusCode) :
    trackRequestCompletion now user apiKey statusCode endpoint responseTime =
      (user, apiKey.map ApiKeyRec.recordError) ∧
    (∀ r : ApiKeyRec,
      (ApiKeyRec.recordError r).usage = r.usage ∧
      (ApiKeyRec.recordError r).analytics.avgResponseTime = r.analytics.avgResponseTime ∧
      (ApiKeyRec.recordError r).analytics.popularEndpoints = r.analytics.popularEndpoints ∧
      (ApiKeyRec.recordError r).analytics.errorCount = r.analytics.errorCount + 1) := by
  have hlt : ¬ statusCode < 400 := by omega
  constructor
  · cases user <;> cases apiKey <;> simp [trackRequestCompletion, hlt, herr]
  · intro r
    simp [ApiKeyRec.recordError]

/-- Witness for C9: a concrete 429-rejected request with a live user and
key: the user is unchanged and only the error counter of the key moves. -/
theorem error_status_only_bumps_error_counter_witness :
    trackRequestCompletion 1000
      (some ⟨UserStatus.active, Plan.basic, ⟨1000, []⟩, ⟨7, 3, none⟩⟩)
      (some ⟨"rfg_k", CredStatus.active, none, [], [], none, none, ⟨7, 3, none⟩,
        ⟨[("facts", 7)], 2, 5⟩⟩)
      429 "facts" 12 =
      (some ⟨UserStatus.active, Plan.basic, ⟨1000, []⟩, ⟨7, 3, none⟩⟩,
       some ⟨"rfg_k", CredStatus.active, none, [], [], none, none, ⟨7, 3, none⟩,
        ⟨[("facts", 7)], 3, 5⟩⟩) :=
  (error_status_only_bumps_error_counter 1000
    (some ⟨UserStatus.active, Plan.basic, ⟨1000, []⟩, ⟨7, 3, none⟩⟩)
    (some ⟨"rfg_k", CredStatus.active, none, [], [], none, none, ⟨7, 3, none⟩,
      ⟨[("facts", 7)], 2, 5⟩⟩)
    429 "facts" 12 (by omega)).1

/-- C10: serializing an API-key record whose secret is longer than 8
characters deletes the key field and replaces it by a mask made of the
first four characters, the literal three dots, and the last four
characters; the mask is always exactly 11 characters long. -/
theorem api_key_serialization_masks_secret (k : String) (hlen : 8 < k.length) :
    maskKeyTransform (some k) = (none, some (maskedKey k)) ∧
    maskedKey k =
      String.mk (k.data.take 4) ++ "..." ++ String.mk (k.data.drop (k.data.length - 4)) ∧
    (maskedKey k).length = 11 := by
  have hdata : k.data.length = k.length := rfl
  refine ⟨?_, rfl, ?_⟩
  · show (if 0 < k.length ∧ 8 < k.length then ((none : Option String), some (maskedKey k))
        else (some k, none)) = (none, some (maskedKey k))
    rw [if_pos ⟨by omega, hlen⟩]
  · have h1 : (String.mk (k.data.take 4)).length = 4 := by
      show (k.data.take 4).length = 4
      rw [List.length_take]
      omega
    have h2 : (String.mk (k.data.drop (k.data.length - 4))).length = 4 := by
      show (k.data.drop (k.data.length - 4)).length = 4
      rw [List.length_drop]
      omega
    have h3 : ("..." : String).length = 3 := rfl
    calc (maskedKey k).length
        = (String.mk (k.data.take 4)).length + ("..." : String).length +
            (String.mk (k.data.drop (k.data.length - 4))).length := by
          simp [maskedKey, String.length_append]
      _ = 11 := by rw [h1, h2, h3]

/-- Witness for C10: a concrete 16-character secret is masked as its first
four characters, three dots, and its last four characters. -/
theorem api_key_serialization_masks_secret_witness :
    maskKeyTransform (some "rfg_1234567890ab") = (none, some "rfg_...90ab") ∧
    ("rfg_...90ab" : String).length = 11 := by
  have h := api_key_serialization_masks_secret "rfg_1234567890ab" (by decide)
  exact ⟨h.1.trans (by decide), by decide⟩
